import Mathlib

/-!
Verification of the gRPC per-call message compression/decompression filter
(`src/core/ext/filters/http/message_compress/compression_filter.cc`).

The embedding models messages as a byte payload (a list of bytes) together
with a `uint32` flags bitmask, and the byte-level compression/decompression
collaborators (`grpc_msg_compress` / `grpc_msg_decompress`, which live
outside this file's source) as function parameters.
-/

namespace GrpcCore

/-- Compression algorithm identifiers (`grpc_compression_algorithm` from
`grpc/impl/compression_types.h`): `none`, `deflate`, `gzip`. -/
inductive grpc_compression_algorithm where
  | GRPC_COMPRESS_NONE
  | GRPC_COMPRESS_DEFLATE
  | GRPC_COMPRESS_GZIP
deriving DecidableEq, Repr

open grpc_compression_algorithm

/-- Index of an algorithm in the enabled-algorithms bitset (its enum value). -/
def algIndex : grpc_compression_algorithm → Nat
  | GRPC_COMPRESS_NONE => 0
  | GRPC_COMPRESS_DEFLATE => 1
  | GRPC_COMPRESS_GZIP => 2

/-- `GRPC_COMPRESS_ALGORITHMS_COUNT`. -/
def GRPC_COMPRESS_ALGORITHMS_COUNT : Nat := 3

/-- Write-flag bit: `GRPC_WRITE_NO_COMPRESS` ("do not compress this message"),
from `grpc/impl/codegen/grpc_types.h` (a header outside the sources here;
the value is a fixed single bit of the `uint32` flags word). -/
def GRPC_WRITE_NO_COMPRESS : Nat := 2

/-- Write-flag bit: `GRPC_WRITE_INTERNAL_COMPRESS` ("payload is internally
compressed"), a single high bit of the `uint32` flags word (declared in a
transport header outside the sources here). -/
def GRPC_WRITE_INTERNAL_COMPRESS : Nat := 2 ^ 31

/-- Write-flag bit: `GRPC_WRITE_INTERNAL_TEST_ONLY_WAS_COMPRESSED`
(test-only "was compressed" marker), a distinct single high bit. -/
def GRPC_WRITE_INTERNAL_TEST_ONLY_WAS_COMPRESSED : Nat := 2 ^ 30

/-- All bits of a `uint32`; `x &&& (uint32Mask ^^^ b)` is the `uint32`
operation `x &= ~b` for a flag bit `b`. -/
def uint32Mask : Nat := 2 ^ 32 - 1

/-- A message: an owned byte payload (`SliceBuffer`, modelled as the list of
its bytes) and a `uint32` flags bitmask. -/
structure Message where
  payload : List Nat
  flags : Nat
deriving DecidableEq, Repr

/-- The statuses the filter produces (`absl::Status`): resource-exhausted
carries the observed and limit sizes, internal carries the algorithm whose
decompression routine failed. -/
inductive GrpcStatus where
  | ResourceExhausted (observed : Nat) (limit : Nat)
  | Internal (algorithm : grpc_compression_algorithm)
deriving DecidableEq, Repr

/-- `CompressionAlgorithmSet`: a bitset of enabled algorithms indexed by
enum value (`compression_internal.h`). -/
structure CompressionAlgorithmSet where
  bits : Nat
deriving DecidableEq, Repr

/-- `CompressionAlgorithmSet::IsSet`. -/
def CompressionAlgorithmSet.IsSet (s : CompressionAlgorithmSet)
    (a : grpc_compression_algorithm) : Bool :=
  s.bits.testBit (algIndex a)

/-- Modelled from the spec: `CompressionAlgorithmSet::FromChannelArgs`
(`compression_internal.cc`, not among the sources here) reads the
enabled-algorithms bitset channel argument, defaulting to "all algorithms
enabled" when absent; only bits of recognized algorithms are kept, and the
"none" sentinel (meaning no compression, always supported) is a member of
every resulting set — the spec's AlgorithmSet contract ("the default, once
finalized, is always a member of the set", with "none" as the downgrade
target) requires "none" to always be enabled. -/
def CompressionAlgorithmSet.FromChannelArgs (bitset : Option Nat) :
    CompressionAlgorithmSet :=
  { bits := ((bitset.getD (2 ^ GRPC_COMPRESS_ALGORITHMS_COUNT - 1)) &&&
      (2 ^ GRPC_COMPRESS_ALGORITHMS_COUNT - 1)) ||| 1 }

/-- Modelled from the spec: the channel-level configuration inputs the filter
constructor reads (§6 of the spec): the accessors
`GetMaxRecvSizeFromChannelArgs`, `DefaultCompressionAlgorithmFromChannelArgs`
and `ChannelArgs::GetBool` live outside the sources here, so the recognized
options are modelled directly as optional fields. -/
structure ChannelArgs where
  max_receive_message_size : Option Nat
  default_compression_algorithm : Option grpc_compression_algorithm
  enabled_compression_algorithms_bitset : Option Nat
  enable_per_message_compression : Option Bool
  enable_per_message_decompression : Option Bool
deriving DecidableEq, Repr

/-- The per-channel filter state (`CompressionFilter`'s fields). -/
structure CompressionFilter where
  max_recv_size : Option Nat
  default_compression_algorithm : grpc_compression_algorithm
  enabled_compression_algorithms : CompressionAlgorithmSet
  enable_compression : Bool
  enable_decompression : Bool
deriving DecidableEq, Repr

/-- `CompressionFilter::CompressionFilter(const ChannelArgs&)`
(compression_filter.cc, lines 82-108): initialize every field from the
channel args (enable flags default to true, default algorithm to none), then
if the default algorithm is not in the enabled set, log a diagnostic and
switch the default to none. -/
def CompressionFilter.ofChannelArgs (args : ChannelArgs) : CompressionFilter :=
  let enabled := CompressionAlgorithmSet.FromChannelArgs
      args.enabled_compression_algorithms_bitset
  let default0 := args.default_compression_algorithm.getD GRPC_COMPRESS_NONE
  { max_recv_size := args.max_receive_message_size,
    default_compression_algorithm :=
      -- Make sure the default is enabled.
      if enabled.IsSet default0 then default0 else GRPC_COMPRESS_NONE,
    enabled_compression_algorithms := enabled,
    enable_compression := args.enable_per_message_compression.getD true,
    enable_decompression := args.enable_per_message_decompression.getD true }

/-- `ClientCompressionFilter::Create` / `ServerCompressionFilter::Create`
(lines 72-80): unconditionally construct the filter and return it as a
success (`absl::StatusOr`); there is no failure return. -/
def CompressionFilter.Create (args : ChannelArgs) :
    Except GrpcStatus CompressionFilter :=
  .ok (CompressionFilter.ofChannelArgs args)

/-- `CompressionFilter::CompressMessage` (lines 110-157), with the byte-level
collaborator `grpc_msg_compress` passed in as `grpc_msg_compress`
(`some tmp` models "`did_compress` is true and the scratch buffer holds
`tmp`"; `none` models "`did_compress` is false"). If the algorithm is none,
per-message compression is disabled, or the message carries the
do-not-compress or internally-compressed flag, the message is returned
unchanged. Otherwise the routine is invoked; on a reported size reduction
the scratch buffer is swapped into the payload and the
internally-compressed flag is set, else the message is returned untouched.
The tracing branches only log and are omitted. -/
def CompressionFilter.CompressMessage (filter : CompressionFilter)
    (grpc_msg_compress :
      grpc_compression_algorithm → List Nat → Option (List Nat))
    (message : Message) (algorithm : grpc_compression_algorithm) : Message :=
  -- Check if we're allowed to compress this message.
  if algorithm = GRPC_COMPRESS_NONE || !filter.enable_compression ||
      (message.flags &&&
        (GRPC_WRITE_NO_COMPRESS ||| GRPC_WRITE_INTERNAL_COMPRESS)) != 0 then
    message
  else
    -- Try to compress the payload.
    match grpc_msg_compress algorithm message.payload with
    | some tmp =>
        -- tmp.Swap(payload); flags |= GRPC_WRITE_INTERNAL_COMPRESS;
        { payload := tmp,
          flags := message.flags ||| GRPC_WRITE_INTERNAL_COMPRESS }
    | none => message

/-- `CompressionFilter::DecompressMessage` (lines 159-194), state-passing
form: the first component is the status produced (`none` for a success
return), the second is the state of the in-place-mutated message at the
return statement. The byte-level collaborator `grpc_msg_decompress` is a
parameter (`none` models its zero = failure return). Order follows the
source: size check, then the disabled/not-flagged pass-through, then the
decompression attempt; the payload swap and flag updates happen only on its
success. -/
def CompressionFilter.DecompressMessageSt (filter : CompressionFilter)
    (grpc_msg_decompress :
      grpc_compression_algorithm → List Nat → Option (List Nat))
    (message : Message) (algorithm : grpc_compression_algorithm)
    (max_recv_message_length : Option Nat) : Option GrpcStatus × Message :=
  let afterSizeCheck : Option GrpcStatus × Message :=
    -- Check if decompression is enabled (if not, we can just pass the
    -- message up).
    if !filter.enable_decompression ||
        (message.flags &&& GRPC_WRITE_INTERNAL_COMPRESS) == 0 then
      (none, message)
    else
      -- Try to decompress the payload.
      match grpc_msg_decompress algorithm message.payload with
      | none => (some (.Internal algorithm), message)
      | some decompressed_slices =>
          -- Swap the decompressed slices into the message.
          (none,
            { payload := decompressed_slices,
              flags := (message.flags &&&
                  (uint32Mask ^^^ GRPC_WRITE_INTERNAL_COMPRESS)) |||
                GRPC_WRITE_INTERNAL_TEST_ONLY_WAS_COMPRESSED })
  -- Check max message length.
  match max_recv_message_length with
  | some limit =>
      if message.payload.length > limit then
        (some (.ResourceExhausted message.payload.length limit), message)
      else afterSizeCheck
  | none => afterSizeCheck

/-- `CompressionFilter::DecompressMessage` as the `absl::StatusOr` it
returns: the status of `DecompressMessageSt`, or the (possibly mutated)
message on success. -/
def CompressionFilter.DecompressMessage (filter : CompressionFilter)
    (grpc_msg_decompress :
      grpc_compression_algorithm → List Nat → Option (List Nat))
    (message : Message) (algorithm : grpc_compression_algorithm)
    (max_recv_message_length : Option Nat) : Except GrpcStatus Message :=
  match filter.DecompressMessageSt grpc_msg_decompress message algorithm
      max_recv_message_length with
  | (some e, _) => .error e
  | (none, m) => .ok m

/-- The metadata keys the filter touches, as typed fields of a
`grpc_metadata_batch` (the generic container is an external collaborator;
`Take`, `Set` and `get` on these typed keys are modelled as field reads and
functional updates): `grpc-internal-encoding-request` (the application's
requested encoding), `grpc-accept-encoding` (the advertised enabled set),
and `grpc-encoding` (the algorithm announced for the message stream). -/
structure grpc_metadata_batch where
  grpc_internal_encoding_request : Option grpc_compression_algorithm
  grpc_accept_encoding : Option CompressionAlgorithmSet
  grpc_encoding : Option grpc_compression_algorithm
deriving DecidableEq, Repr

/-- Result of running the send-side loop: the outgoing initial metadata
after negotiation, the chosen algorithm, and the outgoing message stream
after the per-message transform. -/
structure CompressLoopResult where
  metadata : grpc_metadata_batch
  algorithm : grpc_compression_algorithm
  messages : List Message
deriving DecidableEq, Repr

/-- `CompressionFilter::CompressLoop::TakeAndRun` (lines 241-255): take the
`grpc-internal-encoding-request` value out of the outgoing initial metadata
(defaulting to the filter's default algorithm), unconditionally set
`grpc-accept-encoding` to the enabled set, set `grpc-encoding` to the chosen
algorithm when it is not none, then run the interception loop that applies
`CompressMessage` with that algorithm to every outgoing message (the
`PipeMapper` pump, modelled as a map over the list of messages the call
sends). -/
def CompressLoop.TakeAndRun (filter : CompressionFilter)
    (grpc_msg_compress :
      grpc_compression_algorithm → List Nat → Option (List Nat))
    (outgoing_metadata : grpc_metadata_batch)
    (outgoing_messages : List Message) : CompressLoopResult :=
  let algorithm :=
    (outgoing_metadata.grpc_internal_encoding_request).getD
      filter.default_compression_algorithm
  -- Take removes the key; convey supported compression algorithms.
  let md := { outgoing_metadata with
    grpc_internal_encoding_request := none,
    grpc_accept_encoding := some filter.enabled_compression_algorithms }
  let md :=
    if algorithm ≠ GRPC_COMPRESS_NONE then
      { md with grpc_encoding := some algorithm }
    else md
  -- Interject compression into the message loop.
  { metadata := md,
    algorithm := algorithm,
    messages := outgoing_messages.map
      (fun m => filter.CompressMessage grpc_msg_compress m algorithm) }

/-- The per-call service-config limits the size-limit collaborator returns
(`MessageSizeParsedConfig`, external to the sources here): the loop only
reads its optional max-receive-size. -/
structure MessageSizeParsedConfig where
  max_recv_size : Option Nat
deriving DecidableEq, Repr

/-- The receive-size-limit computation of
`CompressionFilter::DecompressLoop::TakeAndRun` (lines 206-217): start from
the channel-level `max_recv_size_`; if the per-call lookup returned a config
(`limits ≠ nullptr`) carrying a max-receive-size that is tighter than (or
replaces an absent) channel value, use it instead. -/
def DecompressLoop.maxRecvMessageLength (filter : CompressionFilter)
    (limits : Option MessageSizeParsedConfig) : Option Nat :=
  let max_recv_message_length := filter.max_recv_size
  match limits with
  | none => max_recv_message_length
  | some l =>
      match l.max_recv_size with
      | none => max_recv_message_length
      | some s =>
          match max_recv_message_length with
          | none => some s
          | some m => if s < m then some s else some m

/-- The decompression loop of `DecompressLoop::TakeAndRun` (lines 218-223):
apply `DecompressMessage` with the negotiated algorithm and the computed
limit to each incoming message in order; the pump forwards messages until
the first failure, which terminates the loop with that status (the
`PipeMapper` stops and the failing item is not forwarded). -/
def DecompressLoop.TakeAndRun (filter : CompressionFilter)
    (grpc_msg_decompress :
      grpc_compression_algorithm → List Nat → Option (List Nat))
    (limits : Option MessageSizeParsedConfig)
    (algorithm : grpc_compression_algorithm)
    (incoming_messages : List Message) : Except GrpcStatus (List Message) :=
  incoming_messages.mapM
    (fun m => filter.DecompressMessage grpc_msg_decompress m algorithm
      (DecompressLoop.maxRecvMessageLength filter limits))

/-! ### Bitmask helper lemmas -/

theorem and_two_pow_eq_zero_iff (x i : Nat) :
    x &&& 2 ^ i = 0 ↔ x.testBit i = false := by
  rw [Nat.and_two_pow]
  rcases h : x.testBit i <;> simp [h]

theorem lor_land_and_two_pow_eq_zero (f c w i : Nat) (hc : c.testBit i = false)
    (hw : w.testBit i = false) : ((f &&& c) ||| w) &&& 2 ^ i = 0 := by
  rw [and_two_pow_eq_zero_iff, Nat.testBit_lor, Nat.testBit_land, hc, hw]
  simp

theorem lor_and_two_pow_ne_zero (f w i : Nat) (hw : w.testBit i = true) :
    (f ||| w) &&& 2 ^ i ≠ 0 := by
  rw [Ne, and_two_pow_eq_zero_iff, Nat.testBit_lor, hw]
  simp

theorem and_lor_two_pow_eq_zero (x a i : Nat) (h : x &&& (a ||| 2 ^ i) = 0) :
    x &&& 2 ^ i = 0 := by
  have h2 := congrArg (fun n => n.testBit i) h
  simp [Nat.testBit_land, Nat.testBit_lor, Nat.testBit_two_pow_self,
    Nat.zero_testBit] at h2
  rw [Nat.and_two_pow]
  simp [h2]

/-! ### Claim theorems -/

/-- C1: for every message that passes the size check, `DecompressMessage`
returns the message unchanged when decompression is disabled or the
internally-compressed flag is absent; otherwise it invokes the
decompression routine — on failure it returns an internal error naming the
algorithm, and on success it replaces the payload with the decompressed
bytes, clears the internally-compressed flag and sets the test-only
was-compressed marker. -/
theorem decompressMessage_spec (filter : CompressionFilter)
    (fn : grpc_compression_algorithm → List Nat → Option (List Nat))
    (message : Message) (algorithm : grpc_compression_algorithm)
    (max_recv_message_length : Option Nat)
    (hsize : ∀ limit, max_recv_message_length = some limit →
      message.payload.length ≤ limit) :
    ((filter.enable_decompression = false ∨
        message.flags &&& GRPC_WRITE_INTERNAL_COMPRESS = 0) →
      filter.DecompressMessage fn message algorithm max_recv_message_length =
        .ok message) ∧
    (filter.enable_decompression = true →
      message.flags &&& GRPC_WRITE_INTERNAL_COMPRESS ≠ 0 →
      (fn algorithm message.payload = none →
        filter.DecompressMessage fn message algorithm max_recv_message_length =
          .error (.Internal algorithm)) ∧
      (∀ out, fn algorithm message.payload = some out →
        ∃ m', filter.DecompressMessage fn message algorithm
            max_recv_message_length = .ok m' ∧
          m'.payload = out ∧
          m'.flags &&& GRPC_WRITE_INTERNAL_COMPRESS = 0 ∧
          m'.flags &&& GRPC_WRITE_INTERNAL_TEST_ONLY_WAS_COMPRESSED ≠ 0)) := by
  have hnotgt : ∀ limit, max_recv_message_length = some limit →
      ¬ message.payload.length > limit := fun limit h =>
    Nat.not_lt.mpr (hsize limit h)
  constructor
  · intro hpass
    have hcond : (!filter.enable_decompression ||
        (message.flags &&& GRPC_WRITE_INTERNAL_COMPRESS) == 0) = true := by
      rcases hpass with h | h <;> simp [h]
    unfold CompressionFilter.DecompressMessage
      CompressionFilter.DecompressMessageSt
    cases hmax : max_recv_message_length with
    | none => simp [hcond]
    | some limit => simp [hcond, hnotgt limit hmax]
  · intro hen hflag
    have hcond : (!filter.enable_decompression ||
        (message.flags &&& GRPC_WRITE_INTERNAL_COMPRESS) == 0) = false := by
      simp [hen, hflag]
    constructor
    · intro hfn
      unfold CompressionFilter.DecompressMessage
        CompressionFilter.DecompressMessageSt
      cases hmax : max_recv_message_length with
      | none => simp [hcond, hfn]
      | some limit => simp [hcond, hnotgt limit hmax, hfn]
    · intro out hfn
      refine ⟨⟨out, (message.flags &&&
          (uint32Mask ^^^ GRPC_WRITE_INTERNAL_COMPRESS)) |||
          GRPC_WRITE_INTERNAL_TEST_ONLY_WAS_COMPRESSED⟩, ?_, rfl, ?_, ?_⟩
      · unfold CompressionFilter.DecompressMessage
          CompressionFilter.DecompressMessageSt
        cases hmax : max_recv_message_length with
        | none => simp [hcond, hfn]
        | some limit => simp [hcond, hnotgt limit hmax, hfn]
      · simp only [GRPC_WRITE_INTERNAL_COMPRESS, uint32Mask,
          GRPC_WRITE_INTERNAL_TEST_ONLY_WAS_COMPRESSED]
        exact lor_land_and_two_pow_eq_zero _ _ _ 31 (by decide) (by decide)
      · simp only [GRPC_WRITE_INTERNAL_COMPRESS, uint32Mask,
          GRPC_WRITE_INTERNAL_TEST_ONLY_WAS_COMPRESSED]
        exact lor_and_two_pow_ne_zero _ _ 30 (by decide)

/-- C2: `DecompressMessage` returns a resource-exhausted error (carrying the
observed size and the limit) exactly when a maximum is set and the payload's
wire length exceeds it; in that case the result is the same for every
decompression routine (the routine is never invoked) and the message state
at the error is untouched. -/
theorem decompressMessage_size_check (filter : CompressionFilter)
    (fn : grpc_compression_algorithm → List Nat → Option (List Nat))
    (message : Message) (algorithm : grpc_compression_algorithm)
    (max_recv_message_length : Option Nat) :
    ((∃ o l, filter.DecompressMessage fn message algorithm
        max_recv_message_length = .error (.ResourceExhausted o l)) ↔
      ∃ limit, max_recv_message_length = some limit ∧
        message.payload.length > limit) ∧
    (∀ limit, max_recv_message_length = some limit →
      message.payload.length > limit →
      (∀ fn2, filter.DecompressMessage fn2 message algorithm
          max_recv_message_length =
        .error (.ResourceExhausted message.payload.length limit)) ∧
      (filter.DecompressMessageSt fn message algorithm
          max_recv_message_length).2 = message) := by
  constructor
  · constructor
    · rintro ⟨o, l, h⟩
      unfold CompressionFilter.DecompressMessage
        CompressionFilter.DecompressMessageSt at h
      cases hmax : max_recv_message_length with
      | none =>
          exfalso
          rw [hmax] at h
          cases hc : (!filter.enable_decompression ||
              (message.flags &&& GRPC_WRITE_INTERNAL_COMPRESS) == 0) with
          | true => simp [hc] at h
          | false =>
              cases hfn : fn algorithm message.payload <;> simp [hc, hfn] at h
      | some limit =>
          rw [hmax] at h
          by_cases hgt : message.payload.length > limit
          · exact ⟨limit, rfl, hgt⟩
          · exfalso
            cases hc : (!filter.enable_decompression ||
                (message.flags &&& GRPC_WRITE_INTERNAL_COMPRESS) == 0) with
            | true => simp [hc, hgt] at h
            | false =>
                cases hfn : fn algorithm message.payload <;>
                  simp [hc, hgt, hfn] at h
    · rintro ⟨limit, rfl, hgt⟩
      refine ⟨message.payload.length, limit, ?_⟩
      unfold CompressionFilter.DecompressMessage
        CompressionFilter.DecompressMessageSt
      simp [hgt]
  · rintro limit rfl hgt
    constructor
    · intro fn2
      unfold CompressionFilter.DecompressMessage
        CompressionFilter.DecompressMessageSt
      simp [hgt]
    · unfold CompressionFilter.DecompressMessageSt
      simp [hgt]

/-- C9: `DecompressMessage` is atomic on error — whenever it produces a
status (resource-exhausted or internal), the message state at the error
return is exactly the input message: no payload or flag mutation has been
applied. -/
theorem decompressMessageSt_atomic_on_error (filter : CompressionFilter)
    (fn : grpc_compression_algorithm → List Nat → Option (List Nat))
    (message : Message) (algorithm : grpc_compression_algorithm)
    (max_recv_message_length : Option Nat) (e : GrpcStatus)
    (h : (filter.DecompressMessageSt fn message algorithm
        max_recv_message_length).1 = some e) :
    (filter.DecompressMessageSt fn message algorithm
        max_recv_message_length).2 = message := by
  unfold CompressionFilter.DecompressMessageSt at h ⊢
  cases hmax : max_recv_message_length with
  | none =>
      rw [hmax] at h
      cases hc : (!filter.enable_decompression ||
          (message.flags &&& GRPC_WRITE_INTERNAL_COMPRESS) == 0) with
      | true => simp [hc] at h
      | false =>
          cases hfn : fn algorithm message.payload <;> simp [hc, hfn] at h ⊢
  | some limit =>
      rw [hmax] at h
      by_cases hgt : message.payload.length > limit
      · simp [hgt]
      · cases hc : (!filter.enable_decompression ||
            (message.flags &&& GRPC_WRITE_INTERNAL_COMPRESS) == 0) with
        | true => simp [hc, hgt] at h
        | false =>
            cases hfn : fn algorithm message.payload <;>
              simp [hc, hgt, hfn] at h ⊢

/-- C10: `DecompressMessage` has no special case for the "none" algorithm:
for a message carrying the internally-compressed flag, with decompression
enabled and the size check passing, the result is the decompression
routine's verdict at whatever algorithm was negotiated — including "none" —
whereas `CompressMessage` is the identity at the "none" algorithm. -/
theorem decompressMessage_no_none_special_case (filter : CompressionFilter)
    (fn : grpc_compression_algorithm → List Nat → Option (List Nat))
    (message : Message) (max_recv_message_length : Option Nat)
    (hen : filter.enable_decompression = true)
    (hflag : message.flags &&& GRPC_WRITE_INTERNAL_COMPRESS ≠ 0)
    (hsize : ∀ limit, max_recv_message_length = some limit →
      message.payload.length ≤ limit) :
    (∀ algorithm, filter.DecompressMessage fn message algorithm
        max_recv_message_length =
      match fn algorithm message.payload with
      | none => .error (.Internal algorithm)
      | some out => .ok ⟨out, (message.flags &&&
          (uint32Mask ^^^ GRPC_WRITE_INTERNAL_COMPRESS)) |||
          GRPC_WRITE_INTERNAL_TEST_ONLY_WAS_COMPRESSED⟩) ∧
    (∀ cfn, filter.CompressMessage cfn message GRPC_COMPRESS_NONE =
      message) := by
  have hcond : (!filter.enable_decompression ||
      (message.flags &&& GRPC_WRITE_INTERNAL_COMPRESS) == 0) = false := by
    simp [hen, hflag]
  constructor
  · intro algorithm
    unfold CompressionFilter.DecompressMessage
      CompressionFilter.DecompressMessageSt
    cases hmax : max_recv_message_length with
    | none => cases hfn : fn algorithm message.payload <;> simp [hcond, hfn]
    | some limit =>
        have hle := Nat.not_lt.mpr (hsize limit hmax)
        cases hfn : fn algorithm message.payload <;> simp [hcond, hle, hfn]
  · intro cfn
    unfold CompressionFilter.CompressMessage
    simp

/-- C3: when `CompressMessage` actually attempts compression (algorithm not
"none", compression enabled, neither the do-not-compress nor the
internally-compressed flag set): a reported size reduction swaps the scratch
buffer into the payload and sets the internally-compressed flag; otherwise
the payload is byte-identical to the input with flags unchanged and no
internally-compressed bit. `CompressMessage` totally returns a message —
there is no failure path (its return type carries no error). -/
theorem compressMessage_attempt (filter : CompressionFilter)
    (fn : grpc_compression_algorithm → List Nat → Option (List Nat))
    (message : Message) (algorithm : grpc_compression_algorithm)
    (halg : algorithm ≠ GRPC_COMPRESS_NONE)
    (hen : filter.enable_compression = true)
    (hflags : message.flags &&& (GRPC_WRITE_NO_COMPRESS |||
      GRPC_WRITE_INTERNAL_COMPRESS) = 0) :
    (∀ tmp, fn algorithm message.payload = some tmp →
      filter.CompressMessage fn message algorithm =
        ⟨tmp, message.flags ||| GRPC_WRITE_INTERNAL_COMPRESS⟩ ∧
      (filter.CompressMessage fn message algorithm).flags &&&
        GRPC_WRITE_INTERNAL_COMPRESS ≠ 0) ∧
    (fn algorithm message.payload = none →
      filter.CompressMessage fn message algorithm = message ∧
      (filter.CompressMessage fn message algorithm).payload =
        message.payload ∧
      (filter.CompressMessage fn message algorithm).flags &&&
        GRPC_WRITE_INTERNAL_COMPRESS = 0) := by
  constructor
  · intro tmp hfn
    have heq : filter.CompressMessage fn message algorithm =
        ⟨tmp, message.flags ||| GRPC_WRITE_INTERNAL_COMPRESS⟩ := by
      unfold CompressionFilter.CompressMessage
      simp [halg, hen, hflags, hfn]
    refine ⟨heq, ?_⟩
    rw [heq]
    simp only [GRPC_WRITE_INTERNAL_COMPRESS]
    exact lor_and_two_pow_ne_zero _ _ 31 (by decide)
  · intro hfn
    have heq : filter.CompressMessage fn message algorithm = message := by
      unfold CompressionFilter.CompressMessage
      simp [halg, hen, hflags, hfn]
    refine ⟨heq, by rw [heq], ?_⟩
    rw [heq]
    have h := hflags
    simp only [GRPC_WRITE_NO_COMPRESS, GRPC_WRITE_INTERNAL_COMPRESS] at h ⊢
    exact and_lor_two_pow_eq_zero _ _ 31 h

/-- C4: `CompressMessage` is the identity — with the compression routine
never invoked (the result is the same for every routine) — whenever the
algorithm is "none", per-message compression is disabled, or the message
carries the do-not-compress or internally-compressed flag. -/
theorem compressMessage_pass_through (filter : CompressionFilter)
    (message : Message) (algorithm : grpc_compression_algorithm)
    (h : algorithm = GRPC_COMPRESS_NONE ∨ filter.enable_compression = false ∨
      message.flags &&& (GRPC_WRITE_NO_COMPRESS |||
        GRPC_WRITE_INTERNAL_COMPRESS) ≠ 0) :
    ∀ fn, filter.CompressMessage fn message algorithm = message := by
  intro fn
  unfold CompressionFilter.CompressMessage
  rcases h with h | h | h <;> simp [h]

/-- C8: round-trip fidelity — for a message with the internally-compressed
flag initially false (and no do-not-compress flag), a reducing algorithm,
compression and decompression enabled, and routines that invert each other
on this payload, decompressing the compressed message with a limit of at
least the original payload length yields the original payload with the
internally-compressed flag false. -/
theorem compress_decompress_roundtrip
    (cfilter dfilter : CompressionFilter)
    (cfn dfn : grpc_compression_algorithm → List Nat → Option (List Nat))
    (message : Message) (algorithm : grpc_compression_algorithm)
    (limit : Nat) (out : List Nat)
    (halg : algorithm ≠ GRPC_COMPRESS_NONE)
    (hcen : cfilter.enable_compression = true)
    (hden : dfilter.enable_decompression = true)
    (hflags : message.flags &&& (GRPC_WRITE_NO_COMPRESS |||
      GRPC_WRITE_INTERNAL_COMPRESS) = 0)
    (hreduce : cfn algorithm message.payload = some out)
    (hsmaller : out.length < message.payload.length)
    (hinv : dfn algorithm out = some message.payload)
    (hlimit : message.payload.length ≤ limit) :
    message.flags &&& GRPC_WRITE_INTERNAL_COMPRESS = 0 ∧
    ∃ m', dfilter.DecompressMessage dfn
        (cfilter.CompressMessage cfn message algorithm) algorithm
        (some limit) = .ok m' ∧
      m'.payload = message.payload ∧
      m'.flags &&& GRPC_WRITE_INTERNAL_COMPRESS = 0 := by
  have hint : message.flags &&& GRPC_WRITE_INTERNAL_COMPRESS = 0 := by
    have h := hflags
    simp only [GRPC_WRITE_NO_COMPRESS, GRPC_WRITE_INTERNAL_COMPRESS] at h ⊢
    exact and_lor_two_pow_eq_zero _ _ 31 h
  refine ⟨hint, ?_⟩
  have hc : cfilter.CompressMessage cfn message algorithm =
      ⟨out, message.flags ||| GRPC_WRITE_INTERNAL_COMPRESS⟩ := by
    unfold CompressionFilter.CompressMessage
    simp [halg, hcen, hflags, hreduce]
  rw [hc]
  have hflagset : (message.flags ||| GRPC_WRITE_INTERNAL_COMPRESS) &&&
      GRPC_WRITE_INTERNAL_COMPRESS ≠ 0 := by
    simp only [GRPC_WRITE_INTERNAL_COMPRESS]
    exact lor_and_two_pow_ne_zero _ _ 31 (by decide)
  refine ⟨⟨message.payload,
    ((message.flags ||| GRPC_WRITE_INTERNAL_COMPRESS) &&&
      (uint32Mask ^^^ GRPC_WRITE_INTERNAL_COMPRESS)) |||
      GRPC_WRITE_INTERNAL_TEST_ONLY_WAS_COMPRESSED⟩, ?_, rfl, ?_⟩
  · unfold CompressionFilter.DecompressMessage
      CompressionFilter.DecompressMessageSt
    have hsz : ¬ (out.length > limit) :=
      Nat.not_lt.mpr (le_trans (le_of_lt hsmaller) hlimit)
    simp [hden, hflagset, hsz, hinv]
  · simp only [GRPC_WRITE_INTERNAL_COMPRESS, uint32Mask,
      GRPC_WRITE_INTERNAL_TEST_ONLY_WAS_COMPRESSED]
    exact lor_land_and_two_pow_eq_zero _ _ _ 31 (by decide) (by decide)

/-- C5: the send-side negotiation takes (reads and removes) the
requested-encoding key from the outgoing initial metadata, defaulting to the
filter's effective default; unconditionally writes the accepted-encodings
advertisement as the full enabled set; writes the encoding announcement
exactly when the chosen algorithm is not "none" (otherwise that key is left
as it was); and compresses every subsequent outgoing message with the
chosen algorithm. -/
theorem compressLoop_takeAndRun_spec (filter : CompressionFilter)
    (fn : grpc_compression_algorithm → List Nat → Option (List Nat))
    (outgoing_metadata : grpc_metadata_batch)
    (outgoing_messages : List Message) :
    (CompressLoop.TakeAndRun filter fn outgoing_metadata
        outgoing_messages).algorithm =
      (outgoing_metadata.grpc_internal_encoding_request).getD
        filter.default_compression_algorithm ∧
    (CompressLoop.TakeAndRun filter fn outgoing_metadata
        outgoing_messages).metadata.grpc_internal_encoding_request = none ∧
    (CompressLoop.TakeAndRun filter fn outgoing_metadata
        outgoing_messages).metadata.grpc_accept_encoding =
      some filter.enabled_compression_algorithms ∧
    ((CompressLoop.TakeAndRun filter fn outgoing_metadata
        outgoing_messages).algorithm ≠ GRPC_COMPRESS_NONE →
      (CompressLoop.TakeAndRun filter fn outgoing_metadata
          outgoing_messages).metadata.grpc_encoding =
        some (CompressLoop.TakeAndRun filter fn outgoing_metadata
          outgoing_messages).algorithm) ∧
    ((CompressLoop.TakeAndRun filter fn outgoing_metadata
        outgoing_messages).algorithm = GRPC_COMPRESS_NONE →
      (CompressLoop.TakeAndRun filter fn outgoing_metadata
          outgoing_messages).metadata.grpc_encoding =
        outgoing_metadata.grpc_encoding) ∧
    (CompressLoop.TakeAndRun filter fn outgoing_metadata
        outgoing_messages).messages =
      outgoing_messages.map (fun m => filter.CompressMessage fn m
        ((CompressLoop.TakeAndRun filter fn outgoing_metadata
          outgoing_messages).algorithm)) := by
  unfold CompressLoop.TakeAndRun
  by_cases halg : (outgoing_metadata.grpc_internal_encoding_request).getD
      filter.default_compression_algorithm = GRPC_COMPRESS_NONE
  · simp [halg]
  · simp [halg]

/-- C6: filter construction never fails, and the constructed configuration's
effective default algorithm is always a member of the enabled set; whenever
the configured default is not in the enabled set, the effective default is
"none" (diagnostics are logging only, with no error return). -/
theorem compressionFilter_construction_spec (args : ChannelArgs) :
    CompressionFilter.Create args =
      .ok (CompressionFilter.ofChannelArgs args) ∧
    (CompressionFilter.ofChannelArgs
        args).enabled_compression_algorithms.IsSet
      (CompressionFilter.ofChannelArgs
        args).default_compression_algorithm = true ∧
    ((CompressionFilter.ofChannelArgs
          args).enabled_compression_algorithms.IsSet
        (args.default_compression_algorithm.getD GRPC_COMPRESS_NONE) =
          false →
      (CompressionFilter.ofChannelArgs args).default_compression_algorithm =
        GRPC_COMPRESS_NONE) := by
  have hnone : ∀ b, (CompressionAlgorithmSet.FromChannelArgs b).IsSet
      GRPC_COMPRESS_NONE = true := by
    intro b
    unfold CompressionAlgorithmSet.IsSet CompressionAlgorithmSet.FromChannelArgs
      algIndex
    simp [Nat.testBit_lor]
  refine ⟨rfl, ?_, ?_⟩
  · unfold CompressionFilter.ofChannelArgs
    by_cases h : (CompressionAlgorithmSet.FromChannelArgs
        args.enabled_compression_algorithms_bitset).IsSet
        (args.default_compression_algorithm.getD GRPC_COMPRESS_NONE) = true
    · simp [h]
    · simp [h, hnone]
  · intro h
    unfold CompressionFilter.ofChannelArgs at h ⊢
    simp only at h ⊢
    rw [if_neg (by simp [h])]

/-- C7: the effective maximum receive size the decompress loop uses is the
minimum of the channel-level maximum and the per-call service-config
maximum when both are present; when only one is present that one is used;
when neither is present (no per-call config, or one without a
max-receive-size, and no channel maximum) the size is unbounded. -/
theorem decompressLoop_maxRecvMessageLength_spec (filter : CompressionFilter)
    (limits : Option MessageSizeParsedConfig) :
    (∀ m l s, filter.max_recv_size = some m → limits = some l →
      l.max_recv_size = some s →
      DecompressLoop.maxRecvMessageLength filter limits =
        some (min s m)) ∧
    ((limits = none ∨ ∃ l, limits = some l ∧ l.max_recv_size = none) →
      DecompressLoop.maxRecvMessageLength filter limits =
        filter.max_recv_size) ∧
    (∀ l s, filter.max_recv_size = none → limits = some l →
      l.max_recv_size = some s →
      DecompressLoop.maxRecvMessageLength filter limits = some s) := by
  refine ⟨?_, ?_, ?_⟩
  · rintro m l s hm rfl hs
    rcases Nat.lt_or_ge s m with h | h
    · have hmin : min s m = s := by omega
      simp [DecompressLoop.maxRecvMessageLength, hm, hs, h, hmin]
    · have h2 : ¬ s < m := by omega
      have hmin : min s m = m := by omega
      simp [DecompressLoop.maxRecvMessageLength, hm, hs, h2, hmin]
  · rintro (rfl | ⟨l, rfl, hl⟩)
    · simp [DecompressLoop.maxRecvMessageLength]
    · simp [DecompressLoop.maxRecvMessageLength, hl]
  · rintro l s hm rfl hs
    simp [DecompressLoop.maxRecvMessageLength, hm, hs]

/-! ### Witnesses: each theorem instantiated at concrete inputs -/

/-- C1 witness: a compressed two-byte message under a limit of 10, with a
routine producing `[5, 6, 7]`, decompresses successfully. -/
theorem decompressMessage_spec_witness :
    ∃ m', (CompressionFilter.mk (some 10) GRPC_COMPRESS_NONE ⟨7⟩ true
        true).DecompressMessage (fun _ _ => some [5, 6, 7]) ⟨[1, 2], 2 ^ 31⟩
        GRPC_COMPRESS_GZIP (some 10) = .ok m' ∧
      m'.payload = [5, 6, 7] ∧
      m'.flags &&& GRPC_WRITE_INTERNAL_COMPRESS = 0 ∧
      m'.flags &&& GRPC_WRITE_INTERNAL_TEST_ONLY_WAS_COMPRESSED ≠ 0 :=
  ((decompressMessage_spec (CompressionFilter.mk (some 10) GRPC_COMPRESS_NONE
      ⟨7⟩ true true) (fun _ _ => some [5, 6, 7]) ⟨[1, 2], 2 ^ 31⟩
      GRPC_COMPRESS_GZIP (some 10)
      (by intro limit h; injection h with h; subst h; decide)).2
    rfl (by decide)).2 [5, 6, 7] rfl

/-- C2 witness: a 2048-byte message against a 1024-byte limit fails
resource-exhausted carrying both sizes. -/
theorem decompressMessage_size_check_witness :
    (CompressionFilter.mk (some 1024) GRPC_COMPRESS_NONE ⟨7⟩ true
        true).DecompressMessage (fun _ _ => none)
        ⟨List.replicate 2048 0, 0⟩ GRPC_COMPRESS_GZIP (some 1024) =
      .error (.ResourceExhausted 2048 1024) := by
  have h := ((decompressMessage_size_check (CompressionFilter.mk (some 1024)
      GRPC_COMPRESS_NONE ⟨7⟩ true true) (fun _ _ => none)
      ⟨List.replicate 2048 0, 0⟩ GRPC_COMPRESS_GZIP (some 1024)).2 1024 rfl
      (by show (List.replicate 2048 0).length > 1024
          rw [List.length_replicate]; norm_num)).1 (fun _ _ => none)
  have hlen : (Message.mk (List.replicate 2048 0) 0).payload.length = 2048 :=
    by show (List.replicate 2048 0).length = 2048; rw [List.length_replicate]
  rw [hlen] at h
  exact h

/-- C3 witness: a compressible three-byte message shrinks to `[9]` and the
internally-compressed flag is set. -/
theorem compressMessage_attempt_witness :
    (CompressionFilter.mk none GRPC_COMPRESS_NONE ⟨7⟩ true
        true).CompressMessage (fun _ _ => some [9]) ⟨[1, 2, 3], 0⟩
        GRPC_COMPRESS_GZIP =
      ⟨[9], 0 ||| GRPC_WRITE_INTERNAL_COMPRESS⟩ :=
  ((compressMessage_attempt (CompressionFilter.mk none GRPC_COMPRESS_NONE ⟨7⟩
      true true) (fun _ _ => some [9]) ⟨[1, 2, 3], 0⟩ GRPC_COMPRESS_GZIP
      (by decide) rfl (by decide)).1 [9] rfl).1

/-- C4 witness: a message flagged do-not-compress passes through gzip
compression unchanged. -/
theorem compressMessage_pass_through_witness :
    (CompressionFilter.mk none GRPC_COMPRESS_NONE ⟨7⟩ true
        true).CompressMessage (fun _ _ => some [])
        ⟨[1, 2, 3], GRPC_WRITE_NO_COMPRESS⟩ GRPC_COMPRESS_GZIP =
      ⟨[1, 2, 3], GRPC_WRITE_NO_COMPRESS⟩ :=
  compressMessage_pass_through (CompressionFilter.mk none GRPC_COMPRESS_NONE
      ⟨7⟩ true true) ⟨[1, 2, 3], GRPC_WRITE_NO_COMPRESS⟩ GRPC_COMPRESS_GZIP
    (Or.inr (Or.inr (by decide))) (fun _ _ => some [])

/-- C5 witness: requested encoding gzip ends up announced in the outgoing
initial metadata's encoding key. -/
theorem compressLoop_takeAndRun_spec_witness :
    (CompressLoop.TakeAndRun (CompressionFilter.mk none GRPC_COMPRESS_NONE
        ⟨7⟩ true true) (fun _ _ => some [9])
        ⟨some GRPC_COMPRESS_GZIP, none, none⟩ []).metadata.grpc_encoding =
      some GRPC_COMPRESS_GZIP := by
  have h := compressLoop_takeAndRun_spec (CompressionFilter.mk none
      GRPC_COMPRESS_NONE ⟨7⟩ true true) (fun _ _ => some [9])
      ⟨some GRPC_COMPRESS_GZIP, none, none⟩ []
  have he := h.2.2.2.1 (by decide)
  rw [he, h.1]
  rfl

/-- C6 witness: configuring gzip as default with only "none" enabled yields
effective default "none" from a successful construction. -/
theorem compressionFilter_construction_spec_witness :
    (CompressionFilter.ofChannelArgs ⟨none, some GRPC_COMPRESS_GZIP, some 1,
        none, none⟩).default_compression_algorithm = GRPC_COMPRESS_NONE :=
  (compressionFilter_construction_spec ⟨none, some GRPC_COMPRESS_GZIP, some 1,
      none, none⟩).2.2 (by decide)

/-- C7 witness: channel limit 100 against per-call limit 60 yields 60. -/
theorem decompressLoop_maxRecvMessageLength_spec_witness :
    DecompressLoop.maxRecvMessageLength (CompressionFilter.mk (some 100)
        GRPC_COMPRESS_NONE ⟨7⟩ true true) (some ⟨some 60⟩) = some 60 := by
  have h := (decompressLoop_maxRecvMessageLength_spec (CompressionFilter.mk
      (some 100) GRPC_COMPRESS_NONE ⟨7⟩ true true) (some ⟨some 60⟩)).1 100
      ⟨some 60⟩ 60 rfl rfl rfl
  have hmin : min 60 100 = 60 := by norm_num
  rw [h, hmin]

/-- C8 witness: `[1, 2, 3]` compresses to `[9]` and decompresses back to
`[1, 2, 3]` with the internally-compressed flag clear. -/
theorem compress_decompress_roundtrip_witness :
    ∃ m', (CompressionFilter.mk none GRPC_COMPRESS_NONE ⟨7⟩ true
        true).DecompressMessage (fun _ _ => some [1, 2, 3])
        ((CompressionFilter.mk none GRPC_COMPRESS_NONE ⟨7⟩ true
          true).CompressMessage (fun _ _ => some [9]) ⟨[1, 2, 3], 0⟩
          GRPC_COMPRESS_GZIP)
        GRPC_COMPRESS_GZIP (some 3) = .ok m' ∧
      m'.payload = [1, 2, 3] ∧
      m'.flags &&& GRPC_WRITE_INTERNAL_COMPRESS = 0 :=
  (compress_decompress_roundtrip (CompressionFilter.mk none
      GRPC_COMPRESS_NONE ⟨7⟩ true true) (CompressionFilter.mk none
      GRPC_COMPRESS_NONE ⟨7⟩ true true) (fun _ _ => some [9])
      (fun _ _ => some [1, 2, 3]) ⟨[1, 2, 3], 0⟩ GRPC_COMPRESS_GZIP 3 [9]
      (by decide) rfl rfl (by decide) rfl (by decide) rfl (by decide)).2

/-- C9 witness: a failing decompression routine leaves the message state at
the error exactly as it came in. -/
theorem decompressMessageSt_atomic_on_error_witness :
    ((CompressionFilter.mk none GRPC_COMPRESS_NONE ⟨7⟩ true
        true).DecompressMessageSt (fun _ _ => none) ⟨[1, 2], 2 ^ 31⟩
        GRPC_COMPRESS_GZIP none).2 = ⟨[1, 2], 2 ^ 31⟩ :=
  decompressMessageSt_atomic_on_error (CompressionFilter.mk none
      GRPC_COMPRESS_NONE ⟨7⟩ true true) (fun _ _ => none) ⟨[1, 2], 2 ^ 31⟩
    GRPC_COMPRESS_GZIP none (.Internal GRPC_COMPRESS_GZIP) (by decide)

/-- C10 witness: a compressed-flagged message with negotiated algorithm
"none" still reaches the decompression routine, whose failure surfaces as
an internal error naming "none". -/
theorem decompressMessage_no_none_special_case_witness :
    (CompressionFilter.mk none GRPC_COMPRESS_NONE ⟨7⟩ true
        true).DecompressMessage (fun _ _ => none) ⟨[1, 2], 2 ^ 31⟩
        GRPC_COMPRESS_NONE none =
      .error (.Internal GRPC_COMPRESS_NONE) := by
  have h := (decompressMessage_no_none_special_case (CompressionFilter.mk
      none GRPC_COMPRESS_NONE ⟨7⟩ true true) (fun _ _ => none)
      ⟨[1, 2], 2 ^ 31⟩ none rfl (by decide)
      (fun limit h => by cases h)).1 GRPC_COMPRESS_NONE
  simpa using h

end GrpcCore
